import Mathlib

/-!
Shallow embedding of the AgriSentinel crop-health application
(`src/processing.py`, `src/app.py`, `src/models.py`) and proofs about it.

Numeric values that Python holds as floats are modelled as exact rationals
(`ℚ`); Python's banker's rounding (`round(x, k)`) is modelled by `rhe`
(round half to even) applied to `x * 10^k`.  External libraries
(Earth Engine, scikit-learn, shapely, the random module) are modelled as
explicit parameters: fallible external calls return `Except String _`
(a raised Python exception becomes `.error msg`), shapely geometry
predicates become an oracle record, and the random stream becomes a
function `ℕ → ℚ` giving the draw used for each surviving grid cell.
-/

namespace AgriSentinel

/-- Round half to even of a rational to an integer, the rounding mode of
Python's built-in `round`. -/
def rhe (x : ℚ) : ℤ :=
  if Int.fract x < 1/2 then ⌊x⌋
  else if (1:ℚ)/2 < Int.fract x then ⌊x⌋ + 1
  else if Even ⌊x⌋ then ⌊x⌋ else ⌊x⌋ + 1

/-- Python `round(x, 3)` under exact arithmetic. -/
def pyRound3 (x : ℚ) : ℚ := (rhe (x * 1000) : ℚ) / 1000

/-- Python `round(x, 2)` under exact arithmetic. -/
def pyRound2 (x : ℚ) : ℚ := (rhe (x * 100) : ℚ) / 100

/-- Severity label assigned by the `if/elif` chain of
`generate_heatmap_from_points` (processing.py lines 240-251). -/
def pointSeverity (anomaly : ℚ) : String :=
  if anomaly > 7/10 then "critical"
  else if anomaly > 1/2 then "warning"
  else if anomaly > 3/10 then "moderate"
  else "healthy"

/-- Hex color assigned alongside `pointSeverity` in
`generate_heatmap_from_points` (processing.py lines 240-251). -/
def pointColor (anomaly : ℚ) : String :=
  if anomaly > 7/10 then "#d73027"
  else if anomaly > 1/2 then "#fc8d59"
  else if anomaly > 3/10 then "#fee090"
  else "#91cf60"

/-- Severity label assigned by the `if/elif` chain of
`generate_dummy_heatmap` (processing.py lines 331-342), translated
separately from `pointSeverity` so that their agreement is a theorem. -/
def dummySeverity (score : ℚ) : String :=
  if score > 7/10 then "critical"
  else if score > 1/2 then "warning"
  else if score > 3/10 then "moderate"
  else "healthy"

/-- Hex color assigned alongside `dummySeverity` in
`generate_dummy_heatmap` (processing.py lines 331-342). -/
def dummyColor (score : ℚ) : String :=
  if score > 7/10 then "#d73027"
  else if score > 1/2 then "#fc8d59"
  else if score > 3/10 then "#fee090"
  else "#91cf60"

/-- Classification lambda of `compute_statistics_from_df`
(processing.py lines 278-283). -/
def statsClass (x : ℚ) : String :=
  if x > 7/10 then "critical"
  else if x > 1/2 then "warning"
  else if x > 3/10 then "moderate"
  else "healthy"

/-- One row of the scored `current_df` dataframe as it reaches
`generate_heatmap_from_points` and `compute_statistics_from_df`:
columns `lon`, `lat`, `NDVI`, `EVI`, `anomaly_score`, `anomaly_label`,
`normalized_anomaly`. -/
structure ScoredRow where
  lon : ℚ
  lat : ℚ
  ndvi : ℚ
  evi : ℚ
  anomaly_score : ℚ
  anomaly_label : ℤ
  normalized_anomaly : ℚ
  deriving DecidableEq, Repr

/-- Properties dict of a Point feature emitted by
`generate_heatmap_from_points` (processing.py lines 259-267). -/
structure PointProps where
  health_score : ℚ
  anomaly_score : ℚ
  severity : String
  color : String
  ndvi : ℚ
  evi : ℚ
  anomaly_label : String
  deriving DecidableEq, Repr

/-- Properties dict of a clipped-cell feature emitted by
`generate_dummy_heatmap` (processing.py lines 350-355). -/
structure CellProps where
  health_score : ℚ
  anomaly_score : ℚ
  severity : String
  color : String
  deriving DecidableEq, Repr

/-- A GeoJSON feature of either pipeline: a Point feature of the real
pipeline, or a clipped grid-cell feature of the placeholder. -/
inductive Feature where
  | point (coordinates : List ℚ) (properties : PointProps)
  | cell (geomType : String) (coordinates : List (ℚ × ℚ)) (properties : CellProps)
  deriving DecidableEq, Repr

/-- Builds the Point feature for one dataframe row
(processing.py lines 237-268, body of the `iterrows` loop). -/
def pointFeature (row : ScoredRow) : Feature :=
  Feature.point [row.lon, row.lat]
    { health_score := pyRound3 (1 - row.normalized_anomaly)
      anomaly_score := pyRound3 row.normalized_anomaly
      severity := pointSeverity row.normalized_anomaly
      color := pointColor row.normalized_anomaly
      ndvi := pyRound3 row.ndvi
      evi := pyRound3 row.evi
      anomaly_label := if row.anomaly_label = -1 then "Anomaly" else "Normal" }

/-- The list of features of the FeatureCollection returned by
`generate_heatmap_from_points` (processing.py lines 234-274). -/
def generate_heatmap_from_points (df : List ScoredRow) : List Feature :=
  df.map pointFeature

/-- Statistics dict shared by `compute_statistics_from_df` and the
placeholder's statistics block; the placeholder omits `avg_ndvi` and
`avg_evi`, modelled as `none`. -/
structure StatsDict where
  total_zones : ℕ
  healthy_count : ℕ
  moderate_count : ℕ
  warning_count : ℕ
  critical_count : ℕ
  avg_health : ℚ
  avg_ndvi : Option ℚ
  avg_evi : Option ℚ
  deriving DecidableEq, Repr

/-- Mean of a list of rationals (`pandas.Series.mean`); 0 on the empty
list, which the callers never hit. -/
def seriesMean (l : List ℚ) : ℚ := l.sum / l.length

/-- Statistics aggregation `compute_statistics_from_df`
(processing.py lines 277-294): classify each `normalized_anomaly`,
`value_counts`, and the rounded averages. -/
def compute_statistics_from_df (df : List ScoredRow) : StatsDict :=
  let labels := df.map fun r => statsClass r.normalized_anomaly
  { total_zones := df.length
    healthy_count := labels.count "healthy"
    moderate_count := labels.count "moderate"
    warning_count := labels.count "warning"
    critical_count := labels.count "critical"
    avg_health := pyRound3 (1 - seriesMean (df.map fun r => r.normalized_anomaly))
    avg_ndvi := some (pyRound3 (seriesMean (df.map fun r => r.ndvi)))
    avg_evi := some (pyRound3 (seriesMean (df.map fun r => r.evi))) }

/-- An axis-aligned grid cell `Polygon([(x1,y1),(x2,y1),(x2,y2),(x1,y2),(x1,y1)])`
of `generate_dummy_heatmap` (processing.py line 318). -/
structure Cell where
  x1 : ℚ
  y1 : ℚ
  x2 : ℚ
  y2 : ℚ
  deriving DecidableEq, Repr

/-- Oracle for the shapely operations used by `generate_dummy_heatmap`:
the polygon's bounds and, per grid cell, `cell.intersects(geom)`,
`cell.intersection(geom).is_empty`, and the clipped geometry's type and
coordinate list.  Shapely is an external library, so its answers are
inputs of the embedding. -/
structure GeomOracle where
  minx : ℚ
  miny : ℚ
  maxx : ℚ
  maxy : ℚ
  intersects : Cell → Bool
  clipIsEmpty : Cell → Bool
  clipGeomType : Cell → String
  clipCoords : Cell → List (ℚ × ℚ)

/-- The grid cell at loop indices `(i, j)` of `generate_dummy_heatmap`
(processing.py lines 311-318): `x1 = minx + j*cell_width`,
`y1 = miny + i*cell_height`, `x2 = x1 + cell_width`, `y2 = y1 + cell_height`
with `cell_width = (maxx-minx)/6`, `cell_height = (maxy-miny)/6`. -/
def cellAt (g : GeomOracle) (i j : ℕ) : Cell :=
  let w := (g.maxx - g.minx) / 6
  let h := (g.maxy - g.miny) / 6
  { x1 := g.minx + j * w
    y1 := g.miny + i * h
    x2 := g.minx + j * w + w
    y2 := g.miny + i * h + h }

/-- All 36 grid cells in the loop order `for i in range(6): for j in range(6)`. -/
def gridCells (g : GeomOracle) : List Cell :=
  (List.range 6).flatMap fun i => (List.range 6).map fun j => cellAt g i j

/-- The cells that survive the two `continue` guards of
`generate_dummy_heatmap` (processing.py lines 320-326): the cell
intersects the polygon and the clipped intersection is non-empty. -/
def survivingCells (g : GeomOracle) : List Cell :=
  (gridCells g).filter fun c => g.intersects c && !g.clipIsEmpty c

/-- Builds the clipped-cell feature for one surviving cell and its score
(processing.py lines 331-357). -/
def dummyFeature (g : GeomOracle) (c : Cell) (score : ℚ) : Feature :=
  Feature.cell (g.clipGeomType c) (g.clipCoords c)
    { health_score := pyRound3 (1 - score)
      anomaly_score := pyRound3 score
      severity := dummySeverity score
      color := dummyColor score }

/-- Placeholder pipeline `generate_dummy_heatmap`
(processing.py lines 297-369): 6×6 gridding of the bounding box, clipping,
one random score and one feature per surviving cell, and the statistics
block over the collected scores.  `rand k` is the random score drawn for
the `k`-th surviving cell. -/
def generate_dummy_heatmap (g : GeomOracle) (rand : ℕ → ℚ) :
    List Feature × StatsDict :=
  let surviving := survivingCells g
  let scores := (List.range surviving.length).map rand
  let features := List.zipWith (dummyFeature g) surviving scores
  let stats : StatsDict :=
    { total_zones := scores.length
      healthy_count := scores.countP fun s => decide (s ≤ 3/10)
      moderate_count := scores.countP fun s => decide (3/10 < s ∧ s ≤ 1/2)
      warning_count := scores.countP fun s => decide (1/2 < s ∧ s ≤ 7/10)
      critical_count := scores.countP fun s => decide (7/10 < s)
      avg_health :=
        if scores.length ≠ 0 then pyRound3 (1 - scores.sum / scores.length) else 0
      avg_ndvi := none
      avg_evi := none }
  (features, stats)

/-- Minimum of a pandas series (`Series.min`); 0 on the empty series,
which the caller guards against. -/
def seriesMin : List ℚ → ℚ
  | [] => 0
  | x :: xs => xs.foldl min x

/-- Maximum of a pandas series (`Series.max`); 0 on the empty series. -/
def seriesMax : List ℚ → ℚ
  | [] => 0
  | x :: xs => xs.foldl max x

/-- The min-max normalization formula of `compute_ndvi_and_run_model`
(processing.py line 218):
`1 - ((s - min_score) / (max_score - min_score + 1e-8))`. -/
def normalizeScore (minS maxS s : ℚ) : ℚ :=
  1 - ((s - minS) / (maxS - minS + 1/100000000))

/-- The `normalized_anomaly` column (processing.py lines 216-218): every
raw anomaly score normalized against the column's min and max. -/
def normalizedScores (scores : List ℚ) : List ℚ :=
  scores.map (normalizeScore (seriesMin scores) (seriesMax scores))

/-- A row of the historical training dataframe; only the `NDVI` and `EVI`
columns are consumed (after `dropna`), so only they are modelled.
`none` is a NaN entry. -/
structure TrainRow where
  ndvi : Option ℚ
  evi : Option ℚ
  deriving DecidableEq, Repr

/-- A row of the current dataframe returned by `get_s2_data_for_date`;
`none` in `ndvi`/`evi` is a NaN entry (later `fillna(0)`-ed). -/
structure SampleRow where
  lon : ℚ
  lat : ℚ
  ndvi : Option ℚ
  evi : Option ℚ
  deriving DecidableEq, Repr

/-- `df[['NDVI','EVI']].dropna()`: keep the rows where both columns are
present. -/
def dropnaPairs (df : List TrainRow) : List (ℚ × ℚ) :=
  df.filterMap fun r =>
    match r.ndvi, r.evi with
    | some n, some e => some (n, e)
    | _, _ => none

/-- `current_df[['NDVI','EVI']].fillna(0)` for one row. -/
def fillnaPair (r : SampleRow) : ℚ × ℚ :=
  (r.ndvi.getD 0, r.evi.getD 0)

/-- The fitted IsolationForest as the real pipeline sees it: its
`decision_function` and `predict` on a feature matrix, both external
scikit-learn calls that may raise. -/
structure Model where
  decisionFunction : List (ℚ × ℚ) → Except String (List ℚ)
  predict : List (ℚ × ℚ) → Except String (List ℤ)

/-- The external services invoked inside the `try` block of
`compute_ndvi_and_run_model`: the two Earth Engine fetches and the
scikit-learn scaler/model calls.  Each returns `Except String _`; a
`.error` is a raised Python exception. -/
structure RealEnv where
  fetchHistorical : Except String (List TrainRow)
  scalerFitTransform : List (ℚ × ℚ) → Except String (List (ℚ × ℚ))
  isolationForestFit : List (ℚ × ℚ) → Except String Model
  fetchCurrent : Except String (List SampleRow)
  scalerTransform : List (ℚ × ℚ) → Except String (List (ℚ × ℚ))

/-- Builds the scored dataframe rows by attaching the `anomaly_score`,
`anomaly_label` and `normalized_anomaly` columns to `current_df`
(processing.py lines 213-218). -/
def buildScoredRows (current : List SampleRow) (scores : List ℚ)
    (labels : List ℤ) (norm : List ℚ) : List ScoredRow :=
  List.zipWith (fun (r : SampleRow) (p : ℚ × ℤ × ℚ) =>
      { lon := r.lon, lat := r.lat, ndvi := r.ndvi.getD 0, evi := r.evi.getD 0
        anomaly_score := p.1, anomaly_label := p.2.1
        normalized_anomaly := p.2.2 })
    current (List.zip scores (List.zip labels norm))

/-- The body of the `try` block of `compute_ndvi_and_run_model`
(processing.py lines 188-226): historical fetch, the empty-dataframe
guards, model training, current fetch, scoring, min-max normalization,
heatmap and statistics construction. -/
def runRealPipeline (env : RealEnv) : Except String (List Feature × StatsDict) :=
  match env.fetchHistorical with
  | .error e => .error e
  | .ok train_df =>
    if train_df.length = 0 then .error "No historical data found for training"
    else
      match env.scalerFitTransform (dropnaPairs train_df) with
      | .error e => .error e
      | .ok xTrain =>
        match env.isolationForestFit xTrain with
        | .error e => .error e
        | .ok model =>
          match env.fetchCurrent with
          | .error e => .error e
          | .ok current_df =>
            if current_df.length = 0 then .error "No current data available"
            else
              match env.scalerTransform (current_df.map fillnaPair) with
              | .error e => .error e
              | .ok xCurrent =>
                match model.decisionFunction xCurrent with
                | .error e => .error e
                | .ok scores =>
                  match model.predict xCurrent with
                  | .error e => .error e
                  | .ok labels =>
                    let rows := buildScoredRows current_df scores labels
                      (normalizedScores scores)
                    .ok (generate_heatmap_from_points rows,
                         compute_statistics_from_df rows)

/-- `compute_ndvi_and_run_model` (processing.py lines 175-231): run the
real pipeline; on any raised exception fall back to
`generate_dummy_heatmap` on the same polygon. -/
def compute_ndvi_and_run_model (env : RealEnv) (g : GeomOracle)
    (rand : ℕ → ℚ) : List Feature × StatsDict :=
  match runRealPipeline env with
  | .ok r => r
  | .error _ => generate_dummy_heatmap g rand

/-- `calculate_polygon_area` (processing.py lines 372-377) given the
shapely `geom.area` in square degrees (an external computation):
`area * 111 * 111` square km, `* 100` hectares, rounded to 2 decimals. -/
def calculate_polygon_area (area_deg_sq : ℚ) : ℚ :=
  pyRound2 (area_deg_sq * (111 * 111) * 100)

/-- A `land_parcels` row (models.py): the columns the API endpoints read
or write. -/
structure ParcelRow where
  id : ℕ
  user_id : ℕ
  name : String
  description : String
  geojson : String
  last_computed_at : Option ℕ
  deriving DecidableEq, Repr

/-- An `alerts` row (models.py). -/
structure AlertRow where
  land_id : ℕ
  severity : String
  message : String
  deriving DecidableEq, Repr

/-- The database state the parcel API endpoints touch. -/
structure DBState where
  parcels : List ParcelRow
  alerts : List AlertRow
  deriving DecidableEq, Repr

/-- `LandParcel.query.get_or_404(land_id)`: the first parcel with the
given primary key. -/
def findParcel (st : DBState) (landId : ℕ) : Option ParcelRow :=
  st.parcels.find? fun p => p.id = landId

/-- HTTP method of a request to `/api/lands/<id>`. -/
inductive Method where
  | GET
  | PUT
  | DELETE
  deriving DecidableEq, Repr

/-- JSON body of a PUT to `/api/lands/<id>`: each field is present or
absent; a present geojson carries its `type` member. -/
structure PutBody where
  name : Option String
  description : Option String
  geojsonType : Option String
  geojsonText : Option String
  deriving DecidableEq, Repr

/-- Response of `api_land_detail` (app.py lines 198-243). -/
inductive DetailResp where
  | notFound
  | unauthorized
  | badRequest (msg : String)
  | okDetail (p : ParcelRow)
  | updated
  | deleted
  deriving DecidableEq, Repr

/-- `api_land_detail` (app.py lines 198-243): GET/PUT/DELETE on
`/api/lands/<id>` for a logged-in user `uid`, with the ownership check
before any read or write. -/
def api_land_detail (m : Method) (st : DBState) (uid landId : ℕ)
    (body : PutBody) : DetailResp × DBState :=
  match findParcel st landId with
  | none => (.notFound, st)
  | some parcel =>
    if parcel.user_id ≠ uid then (.unauthorized, st)
    else
      match m with
      | .GET => (.okDetail parcel, st)
      | .PUT =>
        let p1 := { parcel with name := body.name.getD parcel.name,
                                description := body.description.getD parcel.description }
        match body.geojsonType with
        | some t =>
          if t ≠ "Polygon" ∧ t ≠ "MultiPolygon" then
            (.badRequest "GeoJSON must be Polygon or MultiPolygon", st)
          else
            let p2 := { p1 with geojson := body.geojsonText.getD p1.geojson }
            (.updated,
             { st with parcels := st.parcels.map fun q => if q.id = landId then p2 else q })
        | none =>
          (.updated,
           { st with parcels := st.parcels.map fun q => if q.id = landId then p1 else q })
      | .DELETE =>
        (.deleted,
         { parcels := st.parcels.filter fun q => q.id ≠ landId
           alerts := st.alerts.filter fun a => a.land_id ≠ landId })

/-- Response of `api_compute_heatmap` (app.py lines 246-293). -/
inductive ComputeResp where
  | notFound
  | unauthorized
  | badDate
  | okCompute (heatmap : List Feature) (stats : StatsDict)
  deriving DecidableEq, Repr

/-- Result of parsing the optional `reference_date` of the request body:
`none` when no date was sent, `some none` when `datetime.strptime`
raised `ValueError`, `some (some d)` for a valid date. -/
def RefDateParse : Type := Option (Option ℕ)

/-- `api_compute_heatmap` (app.py lines 246-293): ownership check, date
validation, the pipeline call (whose result `pipelineResult` stands for
`compute_ndvi_and_run_model` on the parcel's polygon), the
`last_computed_at` update, and the alert created when
`stats.get('critical_count', 0) > 0`. -/
def api_compute_heatmap (st : DBState) (uid landId : ℕ)
    (refDate : Option (Option ℕ)) (pipelineResult : List Feature × StatsDict)
    (now : ℕ) : ComputeResp × DBState :=
  match findParcel st landId with
  | none => (.notFound, st)
  | some parcel =>
    if parcel.user_id ≠ uid then (.unauthorized, st)
    else
      match refDate with
      | some none => (.badDate, st)
      | _ =>
        let hm := pipelineResult.1
        let stats := pipelineResult.2
        let st1 : DBState :=
          { st with parcels := st.parcels.map fun q =>
              if q.id = landId then { q with last_computed_at := some now } else q }
        let criticalCount := stats.critical_count
        let st2 : DBState :=
          if criticalCount > 0 then
            { st1 with alerts := st1.alerts ++
                [{ land_id := landId, severity := "critical"
                   message := "Detected " ++ toString criticalCount ++
                     " critical health zones in " ++ parcel.name }] }
          else st1
        (.okCompute hm stats, st2)

/-- Response of `api_land_area` (app.py lines 296-311). -/
inductive AreaResp where
  | notFound
  | unauthorized
  | okArea (hectares acres : ℚ)
  deriving DecidableEq, Repr

/-- `api_land_area` (app.py lines 296-311): ownership check, then the
area of the parcel's polygon; `shpArea` is the external shapely
`geom.area` of the parsed geojson text. -/
def api_land_area (st : DBState) (uid landId : ℕ) (shpArea : String → ℚ) :
    AreaResp × DBState :=
  match findParcel st landId with
  | none => (.notFound, st)
  | some parcel =>
    if parcel.user_id ≠ uid then (.unauthorized, st)
    else
      let hect := calculate_polygon_area (shpArea parcel.geojson)
      (.okArea hect (hect * 247105 / 100000), st)

/-- Concrete geometry oracle used to evaluate the embedding on a sample
polygon: the unit-square bounding box, every cell intersecting with a
non-empty rectangular clip. -/
def geomW : GeomOracle :=
  { minx := 0, miny := 0, maxx := 1, maxy := 1
    intersects := fun _ => true
    clipIsEmpty := fun _ => false
    clipGeomType := fun _ => "Polygon"
    clipCoords := fun c => [(c.x1, c.y1), (c.x2, c.y1), (c.x2, c.y2), (c.x1, c.y2)] }

/-- Concrete random stream used to evaluate the embedding. -/
def randW : ℕ → ℚ := fun _ => 2/10

/-- Concrete external environment whose historical fetch raises. -/
def envW : RealEnv :=
  { fetchHistorical := .error "EEException: computation timed out"
    scalerFitTransform := fun _ => .ok []
    isolationForestFit := fun _ =>
      .ok { decisionFunction := fun _ => .ok [], predict := fun _ => .ok [] }
    fetchCurrent := .ok []
    scalerTransform := fun _ => .ok [] }

/-- Concrete parcel row used to evaluate the endpoint models. -/
def pW : ParcelRow :=
  { id := 1, user_id := 7, name := "North field"
    description := "", geojson := "{}", last_computed_at := none }

/-- Concrete database state used to evaluate the endpoint models: one
parcel with id 1 owned by user 7, and no alerts. -/
def dbW : DBState := { parcels := [pW], alerts := [] }

/-- Concrete statistics dict with one critical zone. -/
def statsW : StatsDict :=
  { total_zones := 1, healthy_count := 0, moderate_count := 0
    warning_count := 0, critical_count := 1, avg_health := 0
    avg_ndvi := none, avg_evi := none }

/-- Concrete empty PUT body. -/
def bodyW : PutBody :=
  { name := none, description := none, geojsonType := none, geojsonText := none }

/-- Concrete scored dataframe row used to evaluate the embedding. -/
def rowW : ScoredRow :=
  { lon := 1, lat := 2, ndvi := 3/10, evi := 4/10
    anomaly_score := 1/20, anomaly_label := 1, normalized_anomaly := 1/5 }

/-! Theorems. -/

theorem statsClass_healthy_iff (s : ℚ) : statsClass s = "healthy" ↔ s ≤ 3/10 := by
  unfold statsClass
  split_ifs with h1 h2 h3 <;> simp <;> linarith

theorem statsClass_moderate_iff (s : ℚ) :
    statsClass s = "moderate" ↔ 3/10 < s ∧ s ≤ 1/2 := by
  unfold statsClass
  split_ifs with h1 h2 h3 <;> simp <;> (try push_neg) <;> first
    | (constructor <;> linarith)
    | (intro _; linarith)
    | linarith

theorem statsClass_warning_iff (s : ℚ) :
    statsClass s = "warning" ↔ 1/2 < s ∧ s ≤ 7/10 := by
  unfold statsClass
  split_ifs with h1 h2 h3 <;> simp <;> (try push_neg) <;> first
    | (constructor <;> linarith)
    | (intro _; linarith)
    | linarith

theorem statsClass_critical_iff (s : ℚ) : statsClass s = "critical" ↔ 7/10 < s := by
  unfold statsClass
  split_ifs with h1 h2 h3 <;> simp <;> (try push_neg) <;> first
    | (constructor <;> linarith)
    | (intro _; linarith)
    | linarith

/-- C1: the severity classification used by heatmap generation
(`generate_heatmap_from_points`) and by statistics aggregation
(`compute_statistics_from_df`) agree, and they assign exactly one of the
four bands by the fixed thresholds 0.3, 0.5, 0.7: healthy iff s ≤ 0.3,
moderate iff 0.3 < s ≤ 0.5, warning iff 0.5 < s ≤ 0.7, critical iff
s > 0.7. -/
theorem severity_bands_C1 (s : ℚ) :
    pointSeverity s = statsClass s ∧
    (statsClass s = "healthy" ↔ s ≤ 3/10) ∧
    (statsClass s = "moderate" ↔ 3/10 < s ∧ s ≤ 1/2) ∧
    (statsClass s = "warning" ↔ 1/2 < s ∧ s ≤ 7/10) ∧
    (statsClass s = "critical" ↔ 7/10 < s) :=
  ⟨rfl, statsClass_healthy_iff s, statsClass_moderate_iff s,
   statsClass_warning_iff s, statsClass_critical_iff s⟩

/-- C7: the placeholder generator and the real-pipeline generator render
severity identically: for every score the same label and the same hex
color, with the fixed label-to-color pairing. -/
theorem severity_rendering_agrees_C7 (s : ℚ) :
    dummySeverity s = pointSeverity s ∧
    dummyColor s = pointColor s ∧
    (pointSeverity s, pointColor s) ∈
      [("healthy", "#91cf60"), ("moderate", "#fee090"),
       ("warning", "#fc8d59"), ("critical", "#d73027")] := by
  refine ⟨rfl, rfl, ?_⟩
  unfold pointSeverity pointColor
  split_ifs <;> simp

theorem rhe_intCast (n : ℤ) : rhe (n : ℚ) = n := by
  unfold rhe
  rw [Int.fract_intCast, Int.floor_intCast]
  norm_num

theorem rhe_add_rhe_sub (c : ℤ) (hc : Even c) (x : ℚ) :
    rhe x + rhe ((c : ℚ) - x) = c := by
  have hf0 : (0:ℚ) ≤ Int.fract x := Int.fract_nonneg x
  have hf1 : Int.fract x < 1 := Int.fract_lt_one x
  by_cases h0 : Int.fract x = 0
  · have hx : x = (⌊x⌋ : ℚ) := by
      have h := Int.self_sub_fract x
      rw [h0, sub_zero] at h
      exact h
    have hrw : (c : ℚ) - x = ((c - ⌊x⌋ : ℤ) : ℚ) := by
      rw [hx]
      push_cast [Int.floor_intCast]
      ring
    rw [hrw, rhe_intCast]
    have hrx : rhe x = ⌊x⌋ := by
      unfold rhe
      rw [h0]
      norm_num
    rw [hrx]; ring
  · have hfr : Int.fract ((c : ℚ) - x) = 1 - Int.fract x := by
      have hrw : (c : ℚ) - x = (c : ℤ) + (-x) := by push_cast; ring
      rw [hrw, Int.fract_int_add, Int.fract_neg h0]
    have hfx : Int.fract x = x - (⌊x⌋ : ℚ) := rfl
    have hfl : ⌊(c : ℚ) - x⌋ = c - ⌊x⌋ - 1 := by
      have h1 : ((⌊(c : ℚ) - x⌋ : ℤ) : ℚ) = ((c : ℚ) - x) - Int.fract ((c : ℚ) - x) :=
        (Int.self_sub_fract _).symm
      rw [hfr, hfx] at h1
      have h2 : ((⌊(c : ℚ) - x⌋ : ℤ) : ℚ) = ((c - ⌊x⌋ - 1 : ℤ) : ℚ) := by
        rw [h1]; push_cast; ring
      exact_mod_cast h2
    unfold rhe
    rw [hfr, hfl]
    rcases lt_trichotomy (Int.fract x) (1/2) with h | h | h
    · have hgz : 0 < Int.fract x := lt_of_le_of_ne hf0 (Ne.symm h0)
      rw [if_pos h, if_neg (by linarith : ¬ (1 - Int.fract x < 1/2)),
        if_pos (by linarith : (1:ℚ)/2 < 1 - Int.fract x)]
      ring
    · rw [if_neg (by rw [h]; exact lt_irrefl _),
        if_neg (by rw [h]; norm_num : ¬ (1 - Int.fract x < 1/2)),
        if_neg (by rw [h]; norm_num : ¬ ((1:ℚ)/2 < 1 - Int.fract x)),
        if_neg (by rw [h]; norm_num : ¬ ((1:ℚ)/2 < Int.fract x))]
      rcases hc with ⟨t, ht⟩
      by_cases hn : Even ⌊x⌋
      · rcases hn with ⟨u, hu⟩
        rw [if_pos ⟨u, hu⟩, if_neg (by rintro ⟨v, hv⟩; omega : ¬ Even (c - ⌊x⌋ - 1))]
        omega
      · rw [if_neg hn]
        have : Even (c - ⌊x⌋ - 1) := by
          rcases Int.even_or_odd ⌊x⌋ with he | ⟨u, hu⟩
          · exact absurd he hn
          · exact ⟨t - u - 1, by omega⟩
        rw [if_pos this]
        omega
    · rw [if_neg (by linarith : ¬ (Int.fract x < 1/2)), if_pos h,
        if_pos (by linarith : 1 - Int.fract x < 1/2)]
      ring

theorem pyRound3_complement (a : ℚ) : pyRound3 (1 - a) + pyRound3 a = 1 := by
  unfold pyRound3
  have hrw : (1 - a) * 1000 = ((1000 : ℤ) : ℚ) - a * 1000 := by push_cast; ring
  have h := rhe_add_rhe_sub 1000 ⟨500, by norm_num⟩ (a * 1000)
  rw [hrw, div_add_div_same, div_eq_iff (by norm_num : (1000 : ℚ) ≠ 0), one_mul]
  have h2 : rhe (((1000 : ℤ) : ℚ) - a * 1000) + rhe (a * 1000) = 1000 := by linarith [h]
  exact_mod_cast h2

/-- C9: every Point feature of `generate_heatmap_from_points` carries
`health_score = round(1 - a, 3)` and `anomaly_score = round(a, 3)` for its
row's normalized anomaly `a`, and under exact arithmetic with
round-half-even to 3 decimals the two properties sum to 1. -/
theorem health_anomaly_sum_C9 (row : ScoredRow) :
    ∃ props : PointProps,
      pointFeature row = Feature.point [row.lon, row.lat] props ∧
      props.health_score = pyRound3 (1 - row.normalized_anomaly) ∧
      props.anomaly_score = pyRound3 row.normalized_anomaly ∧
      props.health_score + props.anomaly_score = 1 := by
  refine ⟨_, rfl, rfl, rfl, ?_⟩
  exact pyRound3_complement row.normalized_anomaly

theorem statsClass_mem (s : ℚ) :
    statsClass s = "healthy" ∨ statsClass s = "moderate" ∨
    statsClass s = "warning" ∨ statsClass s = "critical" := by
  unfold statsClass
  split_ifs <;> simp

theorem count_statsClass (xs : List ℚ) :
    (xs.map statsClass).count "healthy" + (xs.map statsClass).count "moderate" +
    (xs.map statsClass).count "warning" + (xs.map statsClass).count "critical" =
      xs.length := by
  induction xs with
  | nil => simp
  | cons x t ih =>
    simp only [List.map_cons, List.count_cons, List.length_cons]
    rcases statsClass_mem x with h | h | h | h <;> rw [h] <;> simp <;> omega

theorem countP_bands (xs : List ℚ) :
    xs.countP (fun s => decide (s ≤ 3/10)) +
    xs.countP (fun s => decide (3/10 < s ∧ s ≤ 1/2)) +
    xs.countP (fun s => decide (1/2 < s ∧ s ≤ 7/10)) +
    xs.countP (fun s => decide (7/10 < s)) = xs.length := by
  induction xs with
  | nil => simp
  | cons x t ih =>
    simp only [List.countP_cons, List.length_cons, decide_eq_true_eq]
    rcases le_or_lt x (3/10) with h1 | h1
    · rw [if_pos h1,
        if_neg (by rintro ⟨a, b⟩; linarith : ¬((3:ℚ)/10 < x ∧ x ≤ 1/2)),
        if_neg (by rintro ⟨a, b⟩; linarith : ¬((1:ℚ)/2 < x ∧ x ≤ 7/10)),
        if_neg (by linarith : ¬((7:ℚ)/10 < x))]
      omega
    · rcases le_or_lt x (1/2) with h2 | h2
      · rw [if_neg (by linarith : ¬(x ≤ (3:ℚ)/10)),
          if_pos (⟨h1, h2⟩ : (3:ℚ)/10 < x ∧ x ≤ 1/2),
          if_neg (by rintro ⟨a, b⟩; linarith : ¬((1:ℚ)/2 < x ∧ x ≤ 7/10)),
          if_neg (by linarith : ¬((7:ℚ)/10 < x))]
        omega
      · rcases le_or_lt x (7/10) with h3 | h3
        · rw [if_neg (by linarith : ¬(x ≤ (3:ℚ)/10)),
            if_neg (by rintro ⟨a, b⟩; linarith : ¬((3:ℚ)/10 < x ∧ x ≤ 1/2)),
            if_pos (⟨h2, h3⟩ : (1:ℚ)/2 < x ∧ x ≤ 7/10),
            if_neg (by linarith : ¬((7:ℚ)/10 < x))]
          omega
        · rw [if_neg (by linarith : ¬(x ≤ (3:ℚ)/10)),
            if_neg (by rintro ⟨a, b⟩; linarith : ¬((3:ℚ)/10 < x ∧ x ≤ 1/2)),
            if_neg (by rintro ⟨a, b⟩; linarith : ¬((1:ℚ)/2 < x ∧ x ≤ 7/10)),
            if_pos (h3 : (7:ℚ)/10 < x)]
          omega

/-- C6: in both statistics implementations the four severity counts
partition the whole: they sum to `total_zones`, and `total_zones` is the
number of scored rows (for `compute_statistics_from_df`) respectively the
number of surviving grid cells (for the placeholder's statistics block). -/
theorem stats_partition_C6 (df : List ScoredRow) (g : GeomOracle) (rand : ℕ → ℚ) :
    ((compute_statistics_from_df df).healthy_count +
     (compute_statistics_from_df df).moderate_count +
     (compute_statistics_from_df df).warning_count +
     (compute_statistics_from_df df).critical_count =
       (compute_statistics_from_df df).total_zones ∧
     (compute_statistics_from_df df).total_zones = df.length) ∧
    (((generate_dummy_heatmap g rand).2.healthy_count +
      (generate_dummy_heatmap g rand).2.moderate_count +
      (generate_dummy_heatmap g rand).2.warning_count +
      (generate_dummy_heatmap g rand).2.critical_count =
        (generate_dummy_heatmap g rand).2.total_zones) ∧
     (generate_dummy_heatmap g rand).2.total_zones = (survivingCells g).length) := by
  refine ⟨⟨?_, rfl⟩, ⟨?_, ?_⟩⟩
  · have h := count_statsClass (df.map fun r => r.normalized_anomaly)
    simpa [compute_statistics_from_df, List.map_map, Function.comp,
      List.length_map] using h
  · have h := countP_bands ((List.range (survivingCells g).length).map rand)
    simpa [generate_dummy_heatmap] using h
  · simp [generate_dummy_heatmap]

theorem foldl_min_le_init (l : List ℚ) : ∀ a : ℚ, l.foldl min a ≤ a := by
  induction l with
  | nil => intro a; simp
  | cons x t ih =>
    intro a
    simp only [List.foldl_cons]
    exact le_trans (ih (min a x)) (min_le_left a x)

theorem foldl_min_le_mem (l : List ℚ) : ∀ a x, x ∈ l → l.foldl min a ≤ x := by
  induction l with
  | nil => intro a x h; simp at h
  | cons y t ih =>
    intro a x h
    rcases List.mem_cons.1 h with rfl | h
    · exact le_trans (foldl_min_le_init t (min a x)) (min_le_right a x)
    · exact ih (min a y) x h

theorem init_le_foldl_max (l : List ℚ) : ∀ a : ℚ, a ≤ l.foldl max a := by
  induction l with
  | nil => intro a; simp
  | cons x t ih =>
    intro a
    simp only [List.foldl_cons]
    exact le_trans (le_max_left a x) (ih (max a x))

theorem mem_le_foldl_max (l : List ℚ) : ∀ a x, x ∈ l → x ≤ l.foldl max a := by
  induction l with
  | nil => intro a x h; simp at h
  | cons y t ih =>
    intro a x h
    rcases List.mem_cons.1 h with rfl | h
    · exact le_trans (le_max_right a x) (init_le_foldl_max t (max a x))
    · exact ih (max a y) x h

theorem seriesMin_le (l : List ℚ) (x : ℚ) (h : x ∈ l) : seriesMin l ≤ x := by
  cases l with
  | nil => simp at h
  | cons y t =>
    unfold seriesMin
    rcases List.mem_cons.1 h with rfl | h
    · exact foldl_min_le_init t x
    · exact foldl_min_le_mem t y x h

theorem le_seriesMax (l : List ℚ) (x : ℚ) (h : x ∈ l) : x ≤ seriesMax l := by
  cases l with
  | nil => simp at h
  | cons y t =>
    unfold seriesMax
    rcases List.mem_cons.1 h with rfl | h
    · exact init_le_foldl_max t x
    · exact mem_le_foldl_max t y x h

/-- C4: the min-max normalization stage of the real pipeline maps every
raw anomaly score of a non-empty score column into [0, 1]; the minimum
raw score is mapped to 1, the largest normalized value, and the maximum
raw score to the smallest normalized value, so severity bucketing only
ever receives scores in [0, 1]. -/
theorem minmax_normalization_C4 (scores : List ℚ) (hne : scores ≠ []) :
    (∀ t ∈ normalizedScores scores, 0 ≤ t ∧ t ≤ 1) ∧
    normalizeScore (seriesMin scores) (seriesMax scores) (seriesMin scores) = 1 ∧
    (∀ t ∈ normalizedScores scores,
      t ≤ normalizeScore (seriesMin scores) (seriesMax scores) (seriesMin scores) ∧
      normalizeScore (seriesMin scores) (seriesMax scores) (seriesMax scores) ≤ t) := by
  obtain ⟨y, hy⟩ : ∃ y, y ∈ scores := by
    cases scores with
    | nil => exact absurd rfl hne
    | cons a t => exact ⟨a, List.mem_cons_self a t⟩
  have hmm : seriesMin scores ≤ seriesMax scores :=
    le_trans (seriesMin_le scores y hy) (le_seriesMax scores y hy)
  have hd : (0:ℚ) < seriesMax scores - seriesMin scores + 1/100000000 := by linarith
  have hbound : ∀ s ∈ scores,
      0 ≤ normalizeScore (seriesMin scores) (seriesMax scores) s ∧
      normalizeScore (seriesMin scores) (seriesMax scores) s ≤ 1 := by
    intro s hs
    have h1 : seriesMin scores ≤ s := seriesMin_le scores s hs
    have h2 : s ≤ seriesMax scores := le_seriesMax scores s hs
    unfold normalizeScore
    constructor
    · have : (s - seriesMin scores) / (seriesMax scores - seriesMin scores + 1/100000000) ≤ 1 :=
        (div_le_one hd).2 (by linarith)
      linarith
    · have : 0 ≤ (s - seriesMin scores) / (seriesMax scores - seriesMin scores + 1/100000000) :=
        div_nonneg (by linarith) (le_of_lt hd)
      linarith
  have hmin1 : normalizeScore (seriesMin scores) (seriesMax scores) (seriesMin scores) = 1 := by
    unfold normalizeScore
    rw [sub_self, zero_div, sub_zero]
  refine ⟨?_, hmin1, ?_⟩
  · intro t ht
    obtain ⟨s, hs, rfl⟩ := List.mem_map.1 ht
    exact hbound s hs
  · intro t ht
    obtain ⟨s, hs, rfl⟩ := List.mem_map.1 ht
    have h1 : seriesMin scores ≤ s := seriesMin_le scores s hs
    have h2 : s ≤ seriesMax scores := le_seriesMax scores s hs
    constructor
    · rw [hmin1]
      exact (hbound s hs).2
    · unfold normalizeScore
      have hle : (seriesMax scores - seriesMin scores) /
            (seriesMax scores - seriesMin scores + 1/100000000) ≥
          (s - seriesMin scores) /
            (seriesMax scores - seriesMin scores + 1/100000000) :=
        (div_le_div_right hd).2 (by linarith)
      linarith

/-- C8: `generate_heatmap_from_points` returns exactly one Point feature
per input row, in the input row order; the i-th feature's coordinates are
`[lon, lat]` of the i-th row and its properties carry that row's score. -/
theorem heatmap_points_C8 (df : List ScoredRow) :
    (generate_heatmap_from_points df).length = df.length ∧
    ∀ (i : ℕ) (row : ScoredRow), df[i]? = some row →
      (generate_heatmap_from_points df)[i]? =
        some (Feature.point [row.lon, row.lat]
          { health_score := pyRound3 (1 - row.normalized_anomaly)
            anomaly_score := pyRound3 row.normalized_anomaly
            severity := pointSeverity row.normalized_anomaly
            color := pointColor row.normalized_anomaly
            ndvi := pyRound3 row.ndvi
            evi := pyRound3 row.evi
            anomaly_label := if row.anomaly_label = -1 then "Anomaly" else "Normal" }) := by
  constructor
  · simp [generate_heatmap_from_points]
  · intro i row h
    simp [generate_heatmap_from_points, List.getElem?_map, h, pointFeature]

/-- C3: the placeholder partitions the bounding box into a fixed 6×6 grid
of equal-sized cells, keeps exactly the cells that intersect the polygon
with a non-empty clipped intersection, emits one feature carrying one
score per surviving cell, and reports `total_zones` equal to the number
of surviving cells. -/
theorem dummy_grid_C3 (g : GeomOracle) (rand : ℕ → ℚ) :
    (gridCells g).length = 36 ∧
    (∀ i j, i < 6 → j < 6 →
      (cellAt g i j).x2 - (cellAt g i j).x1 = (g.maxx - g.minx) / 6 ∧
      (cellAt g i j).y2 - (cellAt g i j).y1 = (g.maxy - g.miny) / 6 ∧
      cellAt g i j ∈ gridCells g) ∧
    (∀ c, c ∈ survivingCells g ↔
      c ∈ gridCells g ∧ g.intersects c = true ∧ g.clipIsEmpty c = false) ∧
    (generate_dummy_heatmap g rand).1.length = (survivingCells g).length ∧
    (generate_dummy_heatmap g rand).2.total_zones = (survivingCells g).length ∧
    (∀ k c, (survivingCells g)[k]? = some c →
      (generate_dummy_heatmap g rand).1[k]? =
        some (Feature.cell (g.clipGeomType c) (g.clipCoords c)
          { health_score := pyRound3 (1 - rand k)
            anomaly_score := pyRound3 (rand k)
            severity := dummySeverity (rand k)
            color := dummyColor (rand k) })) := by
  refine ⟨rfl, ?_, ?_, ?_, ?_, ?_⟩
  · intro i j hi hj
    refine ⟨by simp [cellAt], by simp [cellAt], ?_⟩
    exact List.mem_flatMap.2 ⟨i, List.mem_range.2 hi,
      List.mem_map.2 ⟨j, List.mem_range.2 hj, rfl⟩⟩
  · intro c
    simp [survivingCells, List.mem_filter, and_assoc]
  · simp [generate_dummy_heatmap]
  · simp [generate_dummy_heatmap]
  · intro k c h
    have hk : k < (survivingCells g).length := by
      by_contra hk
      rw [List.getElem?_eq_none (le_of_not_lt hk)] at h
      exact Option.noConfusion h
    have hs : ((List.range (survivingCells g).length).map rand)[k]? = some (rand k) := by
      simp [List.getElem?_map, List.getElem?_range hk]
    have hform : (generate_dummy_heatmap g rand).1 =
        List.zipWith (dummyFeature g) (survivingCells g)
          ((List.range (survivingCells g).length).map rand) := rfl
    rw [hform]
    exact List.getElem?_zipWith_eq_some.2 ⟨c, rand k, h, hs, rfl⟩

/-- C2: if any stage inside the `try` block of the real satellite
pipeline raises, `compute_ndvi_and_run_model` does not propagate the
exception but returns the placeholder `generate_dummy_heatmap` pair; when
no stage raises, the pipeline result is returned unchanged, so the
blanket fallback is the only recovery step. -/
theorem fallback_on_exception_C2 (env : RealEnv) (g : GeomOracle) (rand : ℕ → ℚ) :
    (∀ r, runRealPipeline env = .ok r → compute_ndvi_and_run_model env g rand = r) ∧
    (∀ e, runRealPipeline env = .error e →
      compute_ndvi_and_run_model env g rand = generate_dummy_heatmap g rand) ∧
    (∀ e, env.fetchHistorical = .error e →
      compute_ndvi_and_run_model env g rand = generate_dummy_heatmap g rand) ∧
    (∀ e, env.fetchCurrent = .error e →
      compute_ndvi_and_run_model env g rand = generate_dummy_heatmap g rand) := by
  have herr : ∀ e, runRealPipeline env = .error e →
      compute_ndvi_and_run_model env g rand = generate_dummy_heatmap g rand := by
    intro e he
    unfold compute_ndvi_and_run_model
    rw [he]
  refine ⟨?_, herr, ?_, ?_⟩
  · intro r hr
    unfold compute_ndvi_and_run_model
    rw [hr]
  · intro e he
    apply herr e
    unfold runRealPipeline
    rw [he]
  · intro e he
    have hex : ∃ e2, runRealPipeline env = .error e2 := by
      cases hh : env.fetchHistorical with
      | error e1 => exact ⟨e1, by simp [runRealPipeline, hh]⟩
      | ok train_df =>
        by_cases h0 : train_df.length = 0
        · exact ⟨"No historical data found for training",
            by simp [runRealPipeline, hh, h0]⟩
        · cases hs : env.scalerFitTransform (dropnaPairs train_df) with
          | error e2 => exact ⟨e2, by simp [runRealPipeline, hh, h0, hs]⟩
          | ok xTrain =>
            cases hm : env.isolationForestFit xTrain with
            | error e3 => exact ⟨e3, by simp [runRealPipeline, hh, h0, hs, hm]⟩
            | ok model => exact ⟨e, by simp [runRealPipeline, hh, h0, hs, hm, he]⟩
    obtain ⟨e2, he2⟩ := hex
    exact herr e2 he2

/-- C5: on a compute request by the owner of an existing parcel (with a
valid or absent reference date), a new alert with severity `critical` for
that parcel is appended exactly when the returned statistics'
`critical_count` is positive; when it is zero the alerts table is
unchanged. -/
theorem compute_alert_C5 (st : DBState) (uid landId : ℕ)
    (refDate : Option (Option ℕ)) (res : List Feature × StatsDict) (now : ℕ)
    (p : ParcelRow) (hp : findParcel st landId = some p) (hown : p.user_id = uid)
    (hdate : refDate ≠ some none) :
    (api_compute_heatmap st uid landId refDate res now).2.alerts =
      st.alerts ++
        (if res.2.critical_count > 0 then
          [{ land_id := landId, severity := "critical"
             message := "Detected " ++ toString res.2.critical_count ++
               " critical health zones in " ++ p.name }]
         else []) ∧
    (api_compute_heatmap st uid landId refDate res now).1 =
      ComputeResp.okCompute res.1 res.2 := by
  unfold api_compute_heatmap
  rw [hp]
  simp only [hown, ne_eq, not_true_eq_false, if_false]
  cases refDate with
  | none =>
    by_cases hc : res.2.critical_count > 0 <;> simp [hc]
  | some o =>
    cases o with
    | none => exact absurd rfl hdate
    | some d =>
      by_cases hc : res.2.critical_count > 0 <;> simp [hc]

/-- C10: for a logged-in user and an existing parcel not owned by them,
every parcel endpoint (GET/PUT/DELETE on the parcel, compute, area)
answers 403 Unauthorized and leaves the database state — the parcel's
fields, the alerts, `last_computed_at` — exactly as before. -/
theorem unauthorized_unchanged_C10 (st : DBState) (uid landId : ℕ) (m : Method)
    (body : PutBody) (refDate : Option (Option ℕ))
    (res : List Feature × StatsDict) (now : ℕ) (shpArea : String → ℚ)
    (p : ParcelRow) (hp : findParcel st landId = some p)
    (hown : p.user_id ≠ uid) :
    api_land_detail m st uid landId body = (DetailResp.unauthorized, st) ∧
    api_compute_heatmap st uid landId refDate res now =
      (ComputeResp.unauthorized, st) ∧
    api_land_area st uid landId shpArea = (AreaResp.unauthorized, st) := by
  refine ⟨?_, ?_, ?_⟩
  · simp [api_land_detail, hp, hown]
  · simp [api_compute_heatmap, hp, hown]
  · simp [api_land_area, hp, hown]

theorem minmax_normalization_C4_witness :
    ([(1:ℚ)/2, 1/4, 3/4] ≠ []) ∧
    ((∀ t ∈ normalizedScores [(1:ℚ)/2, 1/4, 3/4], 0 ≤ t ∧ t ≤ 1) ∧
     normalizeScore (seriesMin [(1:ℚ)/2, 1/4, 3/4]) (seriesMax [(1:ℚ)/2, 1/4, 3/4])
       (seriesMin [(1:ℚ)/2, 1/4, 3/4]) = 1 ∧
     (∀ t ∈ normalizedScores [(1:ℚ)/2, 1/4, 3/4],
       t ≤ normalizeScore (seriesMin [(1:ℚ)/2, 1/4, 3/4]) (seriesMax [(1:ℚ)/2, 1/4, 3/4])
             (seriesMin [(1:ℚ)/2, 1/4, 3/4]) ∧
       normalizeScore (seriesMin [(1:ℚ)/2, 1/4, 3/4]) (seriesMax [(1:ℚ)/2, 1/4, 3/4])
           (seriesMax [(1:ℚ)/2, 1/4, 3/4]) ≤ t)) :=
  ⟨by decide, minmax_normalization_C4 [(1:ℚ)/2, 1/4, 3/4] (by decide)⟩

theorem fallback_on_exception_C2_witness :
    envW.fetchHistorical = Except.error "EEException: computation timed out" ∧
    compute_ndvi_and_run_model envW geomW randW = generate_dummy_heatmap geomW randW :=
  ⟨rfl, (fallback_on_exception_C2 envW geomW randW).2.2.1
    "EEException: computation timed out" rfl⟩

theorem dummy_grid_C3_witness :
    (survivingCells geomW)[0]? = some (cellAt geomW 0 0) ∧
    (generate_dummy_heatmap geomW randW).1[0]? =
      some (Feature.cell (geomW.clipGeomType (cellAt geomW 0 0))
        (geomW.clipCoords (cellAt geomW 0 0))
        { health_score := pyRound3 (1 - randW 0)
          anomaly_score := pyRound3 (randW 0)
          severity := dummySeverity (randW 0)
          color := dummyColor (randW 0) }) :=
  ⟨rfl, (dummy_grid_C3 geomW randW).2.2.2.2.2 0 (cellAt geomW 0 0) rfl⟩

theorem heatmap_points_C8_witness :
    ([rowW] : List ScoredRow)[0]? = some rowW ∧
    (generate_heatmap_from_points [rowW])[0]? =
      some (Feature.point [rowW.lon, rowW.lat]
        { health_score := pyRound3 (1 - rowW.normalized_anomaly)
          anomaly_score := pyRound3 rowW.normalized_anomaly
          severity := pointSeverity rowW.normalized_anomaly
          color := pointColor rowW.normalized_anomaly
          ndvi := pyRound3 rowW.ndvi
          evi := pyRound3 rowW.evi
          anomaly_label := if rowW.anomaly_label = -1 then "Anomaly" else "Normal" }) :=
  ⟨rfl, (heatmap_points_C8 [rowW]).2 0 rowW rfl⟩

theorem compute_alert_C5_witness :
    findParcel dbW 1 = some pW ∧ pW.user_id = 7 ∧
    (none : Option (Option ℕ)) ≠ some none ∧
    ((api_compute_heatmap dbW 7 1 none ([], statsW) 5).2.alerts =
      dbW.alerts ++
        (if statsW.critical_count > 0 then
          [{ land_id := 1, severity := "critical"
             message := "Detected " ++ toString statsW.critical_count ++
               " critical health zones in " ++ pW.name }]
         else []) ∧
     (api_compute_heatmap dbW 7 1 none ([], statsW) 5).1 =
       ComputeResp.okCompute [] statsW) :=
  ⟨rfl, rfl, by decide,
   compute_alert_C5 dbW 7 1 none ([], statsW) 5 pW rfl rfl (by decide)⟩

theorem unauthorized_unchanged_C10_witness :
    findParcel dbW 1 = some pW ∧ pW.user_id ≠ 8 ∧
    (api_land_detail Method.GET dbW 8 1 bodyW = (DetailResp.unauthorized, dbW) ∧
     api_compute_heatmap dbW 8 1 none ([], statsW) 5 =
       (ComputeResp.unauthorized, dbW) ∧
     api_land_area dbW 8 1 (fun _ => 0) = (AreaResp.unauthorized, dbW)) :=
  ⟨rfl, by decide,
   unauthorized_unchanged_C10 dbW 8 1 Method.GET bodyW none ([], statsW) 5
     (fun _ => 0) pW rfl (by decide)⟩

end AgriSentinel
